import Mathlib

/-!
# Shallow embedding of `lib/servctrl/servctrl.go`

This file embeds the stop/kill control core of the minecraft-server-hibernation
repository: `StopMS`, `StopMSRequest` and `killMSifOnlineAfterTimeout`.

Modelling conventions:
* `Stats.Status` is a Go string; it is kept as a `String` here and compared
  against the literals `"starting"`, `"online"`, `"offline"` exactly as the
  source does.
* `Stats.StopMSRequests` is a Go `int32` updated with `sync/atomic`.  It is
  modelled as `Int`; all reachable values in the claims stay far away from
  `2^31`, so two's-complement wraparound never fires and is not modelled.
* External collaborators are parameters: `countPlayerSafe()` becomes the pair
  `(playerCount, isFromServer)`, `Execute(...)` becomes an `Option String`
  (`some msg` = the call returned an error with message `msg`), the process
  `Kill()` likewise.
* The wait loop `for Stats.Status == "starting"` polls the status once per
  iteration; the poll results are supplied as a finite trace (`List String`
  for `StopMS`, `Nat → String` for the kill watchdog, one entry per poll).
-/

set_option linter.unusedVariables false

namespace Servctrl

/-- The errors `StopMS` can return (each `fmt.Errorf` site in the source). -/
inductive StopErr where
  | notOnline
  | serverNotEmpty
  | pendingRequests (n : Int)
  | stopCommand (msg : String)
deriving Repr, DecidableEq

/-- The `fmt.Errorf` message of each `StopMS` error, as written in the source
(`%d` and `%v` rendered by `toString`). -/
def stopErrMsg : StopErr → String
  | .notOnline => "StopMS: server is not online"
  | .serverNotEmpty => "StopMS: server is not empty"
  | .pendingRequests n =>
      "StopMS: not enough time has passed since last player disconnected (StopMSRequests: "
        ++ toString n ++ ")"
  | .stopCommand msg =>
      "StopMS: error executing minecraft server stop command: " ++ msg

/-- Observable outcome of one `StopMS` call: the returned error (if any), the
status value (never written by `StopMS`), the `Stats.StopMSRequests` counter
after the call, whether `countPlayerSafe` was queried, whether the stop
command `Execute` was invoked, and whether `killMSifOnlineAfterTimeout` was
launched. -/
structure StopResult where
  err : Option StopErr
  status : String
  stopMSRequests : Int
  playersQueried : Bool
  stopCmdSent : Bool
  killWatchdogArmed : Bool
deriving Repr, DecidableEq

/-- The tail of `StopMS` from `Execute(config.ConfigRuntime.Commands.StopServer, ...)`
on: run the stop command, and on success launch the kill watchdog iff
`config.ConfigRuntime.Commands.StopServerAllowKill > 0`. -/
def StopMSExec (status : String) (reqs : Int) (queried : Bool)
    (execErr : Option String) (stopServerAllowKill : Int) : StopResult :=
  match execErr with
  | some m =>
      { err := some (.stopCommand m), status := status, stopMSRequests := reqs,
        playersQueried := queried, stopCmdSent := true, killWatchdogArmed := false }
  | none =>
      { err := none, status := status, stopMSRequests := reqs,
        playersQueried := queried, stopCmdSent := true,
        killWatchdogArmed := decide (0 < stopServerAllowKill) }

/-- `StopMS` after the `for Stats.Status == "starting"` wait loop has exited:
`status` is the status value observed there. Mirrors the source line by line:
the `!= "online"` gate, then (when `playersCheck`) the atomic decrement, the
`countPlayerSafe` occupancy check, the post-decrement counter check, and
finally the stop command. -/
def StopMSCore (playersCheck : Bool) (status : String) (reqs : Int)
    (playerCount : Int) (isFromServer : Bool) (execErr : Option String)
    (stopServerAllowKill : Int) : StopResult :=
  if status ≠ "online" then
    { err := some .notOnline, status := status, stopMSRequests := reqs,
      playersQueried := false, stopCmdSent := false, killWatchdogArmed := false }
  else if playersCheck then
    -- atomic.AddInt32(&Stats.StopMSRequests, -1)
    let reqs1 := reqs - 1
    -- playerCount, isFromServer := countPlayerSafe(); logged, isFromServer unused otherwise
    if 0 < playerCount then
      { err := some .serverNotEmpty, status := status, stopMSRequests := reqs1,
        playersQueried := true, stopCmdSent := false, killWatchdogArmed := false }
    else if 0 < reqs1 then
      { err := some (.pendingRequests reqs1), status := status, stopMSRequests := reqs1,
        playersQueried := true, stopCmdSent := false, killWatchdogArmed := false }
    else
      StopMSExec status reqs1 true execErr stopServerAllowKill
  else
    StopMSExec status reqs false execErr stopServerAllowKill

/-- A full `StopMS` call over a finite trace of status polls: either the wait
loop is still consuming `"starting"` observations when the trace ends
(`waiting`), or it exits at the first non-`"starting"` observation and the
body runs (`finished`). -/
inductive StopOutcome where
  | waiting
  | finished (r : StopResult)
deriving Repr, DecidableEq

/-- `StopMS(playersCheck)`: poll the status once per wait-loop iteration
(entries of `obs`); while it reads `"starting"` keep sleeping, do nothing
else; at the first other reading run the body `StopMSCore`. -/
def StopMS (playersCheck : Bool) (obs : List String) (reqs : Int)
    (playerCount : Int) (isFromServer : Bool) (execErr : Option String)
    (stopServerAllowKill : Int) : StopOutcome :=
  match obs with
  | [] => .waiting
  | st :: rest =>
      if st = "starting" then
        StopMS playersCheck rest reqs playerCount isFromServer execErr stopServerAllowKill
      else
        .finished (StopMSCore playersCheck st reqs playerCount isFromServer execErr
          stopServerAllowKill)

/-- First status observation that is not `"starting"` (the value the wait loop
exits with), if the trace contains one. -/
def firstNonStarting : List String → Option String
  | [] => none
  | s :: rest => if s = "starting" then firstNonStarting rest else some s

/-- Whether a `StopMS` outcome launched the kill watchdog. -/
def outcomeArmed : StopOutcome → Bool
  | .waiting => false
  | .finished r => r.killWatchdogArmed

/-- `StopMSRequest`: atomically increment `Stats.StopMSRequests` and schedule
(`time.AfterFunc`) exactly one deferred `StopMS(true)` call after
`config.ConfigRuntime.Msh.TimeBeforeStoppingEmptyServer` seconds.  Returns the
new counter and the timer list with the one new delay appended. -/
def StopMSRequest (timeBeforeStoppingEmptyServer : Int) (reqs : Int)
    (timers : List Int) : Int × List Int :=
  (reqs + 1, timers ++ [timeBeforeStoppingEmptyServer])

/-- The error handling inside the `time.AfterFunc` closure of `StopMSRequest`:
a `nil` error and the error whose message is exactly
`"StopMS: server is not online"` produce no log line; every other error is
logged as `"StopMSRequest:"` followed by the message.  Nothing is ever
returned to the caller (the closure returns void). -/
def deferredStopLog (stopErr : Option StopErr) : Option String :=
  match stopErr with
  | none => none
  | some e =>
      if stopErrMsg e = "StopMS: server is not online" then none
      else some ("StopMSRequest: " ++ stopErrMsg e)

/-- A log event emitted by `killMSifOnlineAfterTimeout` (via `logger.Logln`). -/
inductive KillLog where
  | saveWorldNotice
  | killSignalNotice
  | killError (msg : String)
deriving Repr, DecidableEq

/-- Observable outcome of one `killMSifOnlineAfterTimeout` run: whether it
returned early because it observed `"offline"` (`disarmed`), whether the
`save-all` flush command was invoked, how many seconds it slept after the
flush, whether the kill signal was sent, and what it logged.  The Go function
returns nothing: there is no error field by construction. -/
structure KillResult where
  disarmed : Bool
  flushSent : Bool
  waitedBufferSeconds : Nat
  killSignalSent : Bool
  logs : List KillLog
deriving Repr, DecidableEq

/-- The escalation tail of `killMSifOnlineAfterTimeout`: log, run `save-all`
ignoring its result (`_, _ = Execute(...)`), sleep 10 seconds, log, send the
kill signal, and log the kill error if there is one. -/
def killEscalation (flushErr killErr : Option String) : KillResult :=
  { disarmed := false, flushSent := true, waitedBufferSeconds := 10,
    killSignalSent := true,
    logs := [KillLog.saveWorldNotice, KillLog.killSignalNotice] ++
      (match killErr with
       | some m => [KillLog.killError m]
       | none => []) }

/-- The countdown loop of `killMSifOnlineAfterTimeout`: with `c` iterations
left, poll `Stats.Status` (observation index `i`); on `"offline"` return at
once; otherwise decrement the countdown, sleep one second and loop.  Falling
out of the loop escalates. -/
def killMSLoop (obs : Nat → String) (flushErr killErr : Option String) :
    Nat → Nat → KillResult
  | _, 0 => killEscalation flushErr killErr
  | i, c + 1 =>
      if obs i = "offline" then
        { disarmed := true, flushSent := false, waitedBufferSeconds := 0,
          killSignalSent := false, logs := [] }
      else
        killMSLoop obs flushErr killErr (i + 1) c

/-- `killMSifOnlineAfterTimeout`: `countdown := config...StopServerAllowKill`
(a Go `int`; `for countdown > 0` runs `max countdown 0` iterations, hence
`Int.toNat`), polling the status once per iteration. -/
def killMSifOnlineAfterTimeout (stopServerAllowKill : Int) (obs : Nat → String)
    (flushErr killErr : Option String) : KillResult :=
  killMSLoop obs flushErr killErr 0 stopServerAllowKill.toNat

/-! ## System model for the debounce-counter invariant

`StopMSRequest` calls issued within one idle-timeout window all perform their
increment before any of their `time.AfterFunc` callbacks fires (each callback
fires a full timeout after its own increment, and the window is narrower than
the timeout).  The model below therefore applies the `n` increments first and
then runs the `n` deferred `StopMS(true)` callbacks sequentially in an
arbitrary order with arbitrary per-callback environments.  `Stats.Status` is
`"online"` as long as no stop command has been issued (nothing else in the
core mutates it during the window); once a stop command has been issued the
status a later callback observes is adversarial (`statusAfterStop`). -/

/-- The shared state the deferred callbacks interact with. -/
structure SysState where
  stopMSRequests : Int
  stopIssued : Bool
deriving Repr, DecidableEq

/-- Environment of one deferred `StopMS(true)` callback firing: the status it
would observe if a stop command had already been issued, and the results of
its `countPlayerSafe` and `Execute` calls. -/
structure CallbackEnv where
  statusAfterStop : String
  playerCount : Int
  isFromServer : Bool
  execErr : Option String
deriving Repr, DecidableEq

/-- Status observed by a callback: `"online"` until a stop command has been
issued, adversarial afterwards. -/
def callbackStatus (s : SysState) (e : CallbackEnv) : String :=
  if s.stopIssued then e.statusAfterStop else "online"

/-- Run one deferred `StopMS(true)` callback against the shared state. -/
def runCallback (stopServerAllowKill : Int) (s : SysState) (e : CallbackEnv) :
    SysState :=
  let r := StopMSCore true (callbackStatus s e) s.stopMSRequests e.playerCount
    e.isFromServer e.execErr stopServerAllowKill
  { stopMSRequests := r.stopMSRequests, stopIssued := s.stopIssued || r.stopCmdSent }

/-- Run a list of deferred callbacks sequentially. -/
def runCallbacks (stopServerAllowKill : Int) (s : SysState)
    (envs : List CallbackEnv) : SysState :=
  envs.foldl (runCallback stopServerAllowKill) s

/-- Apply `n` `StopMSRequest` increments to a (counter, timer list) state. -/
def requestN (timeBeforeStoppingEmptyServer : Int) :
    Nat → Int × List Int → Int × List Int
  | 0, s => s
  | n + 1, s => requestN timeBeforeStoppingEmptyServer n
      (StopMSRequest timeBeforeStoppingEmptyServer s.1 s.2)

/-! ## Helper lemmas -/

theorem StopMSExec_stopMSRequests (status : String) (reqs : Int) (q : Bool)
    (e : Option String) (ak : Int) :
    (StopMSExec status reqs q e ak).stopMSRequests = reqs := by
  cases e <;> rfl

theorem StopMSExec_stopCmdSent (status : String) (reqs : Int) (q : Bool)
    (e : Option String) (ak : Int) :
    (StopMSExec status reqs q e ak).stopCmdSent = true := by
  cases e <;> rfl

theorem StopMSExec_status (status : String) (reqs : Int) (q : Bool)
    (e : Option String) (ak : Int) :
    (StopMSExec status reqs q e ak).status = status := by
  cases e <;> rfl

/-- Normal form of the `playersCheck` branch of `StopMS` once the status is
`"online"`. -/
theorem StopMSCore_online_true (reqs pc : Int) (ifs : Bool) (e : Option String) (ak : Int) :
    StopMSCore true "online" reqs pc ifs e ak =
      if 0 < pc then
        { err := some .serverNotEmpty, status := "online", stopMSRequests := reqs - 1,
          playersQueried := true, stopCmdSent := false, killWatchdogArmed := false }
      else if 0 < reqs - 1 then
        { err := some (.pendingRequests (reqs - 1)), status := "online",
          stopMSRequests := reqs - 1, playersQueried := true, stopCmdSent := false,
          killWatchdogArmed := false }
      else StopMSExec "online" (reqs - 1) true e ak := by
  simp [StopMSCore]

theorem StopMSCore_online_dec (reqs pc : Int) (ifs : Bool) (e : Option String) (ak : Int) :
    (StopMSCore true "online" reqs pc ifs e ak).stopMSRequests = reqs - 1 := by
  rw [StopMSCore_online_true]
  split_ifs <;> first | rfl | (cases e <;> rfl)

theorem StopMSCore_online_cmd_iff (reqs pc : Int) (ifs : Bool) (e : Option String) (ak : Int) :
    (StopMSCore true "online" reqs pc ifs e ak).stopCmdSent = true ↔
      (pc ≤ 0 ∧ reqs - 1 ≤ 0) := by
  rw [StopMSCore_online_true]
  split_ifs with h2 h3
  · simp; omega
  · simp; omega
  · cases e <;> simp [StopMSExec] <;> omega

theorem StopMSCore_not_online (playersCheck : Bool) (status : String) (reqs pc : Int)
    (ifs : Bool) (e : Option String) (ak : Int) (h : status ≠ "online") :
    StopMSCore playersCheck status reqs pc ifs e ak =
      { err := some .notOnline, status := status, stopMSRequests := reqs,
        playersQueried := false, stopCmdSent := false, killWatchdogArmed := false } := by
  simp [StopMSCore, h]

/-! ## Claim theorems -/

/-- C1: In `StopMS(true)`, once the observed status is `"online"`:
the `StopMSRequests` counter is decremented by one in every branch; the
occupancy query is always made; a positive player count fails with
`serverNotEmpty` (no stop command, watchdog not armed) regardless of the
counter value; only when the player count is non-positive does a positive
post-decrement counter fail with `pendingRequests`; and the stop command is
invoked exactly when both checks pass. -/
theorem stopMS_playersCheck_check_order (reqs pc : Int) (ifs : Bool)
    (e : Option String) (ak : Int) :
    (StopMSCore true "online" reqs pc ifs e ak).stopMSRequests = reqs - 1 ∧
    (StopMSCore true "online" reqs pc ifs e ak).playersQueried = true ∧
    (0 < pc → StopMSCore true "online" reqs pc ifs e ak =
      { err := some .serverNotEmpty, status := "online", stopMSRequests := reqs - 1,
        playersQueried := true, stopCmdSent := false, killWatchdogArmed := false }) ∧
    (pc ≤ 0 → 0 < reqs - 1 → StopMSCore true "online" reqs pc ifs e ak =
      { err := some (.pendingRequests (reqs - 1)), status := "online",
        stopMSRequests := reqs - 1, playersQueried := true, stopCmdSent := false,
        killWatchdogArmed := false }) ∧
    ((StopMSCore true "online" reqs pc ifs e ak).stopCmdSent = true ↔
      pc ≤ 0 ∧ reqs - 1 ≤ 0) := by
  refine ⟨StopMSCore_online_dec reqs pc ifs e ak, ?_, ?_, ?_,
    StopMSCore_online_cmd_iff reqs pc ifs e ak⟩
  · rw [StopMSCore_online_true]
    split_ifs <;> first | rfl | (cases e <;> rfl)
  · intro h
    rw [StopMSCore_online_true, if_pos h]
  · intro h h2
    rw [StopMSCore_online_true, if_neg (by omega), if_pos h2]

/-- Witness for C1 at a concrete input: two players online, one pending
request. -/
theorem stopMS_playersCheck_check_order_witness :
    (0:Int) < 2 ∧ StopMSCore true "online" 1 2 true none 5 =
      { err := some .serverNotEmpty, status := "online", stopMSRequests := 1 - 1,
        playersQueried := true, stopCmdSent := false, killWatchdogArmed := false } :=
  ⟨by decide, (stopMS_playersCheck_check_order 1 2 true none 5).2.2.1 (by decide)⟩

/-- C7: when `StopMS(true)` fails with `serverNotEmpty`, the counter has
already been decremented and the returned state keeps the decremented value
(the failed attempt consumes one pending-request unit; nothing restores it,
and `StopMS` schedules no new deferred attempt). -/
theorem stopMS_serverNotEmpty_consumes_unit (reqs pc : Int) (ifs : Bool)
    (e : Option String) (ak : Int) (h : 0 < pc) :
    (StopMSCore true "online" reqs pc ifs e ak).err = some .serverNotEmpty ∧
    (StopMSCore true "online" reqs pc ifs e ak).stopMSRequests = reqs - 1 ∧
    (StopMSCore true "online" reqs pc ifs e ak).stopCmdSent = false := by
  rw [StopMSCore_online_true, if_pos h]
  exact ⟨rfl, rfl, rfl⟩

/-- Witness for C7 at a concrete input. -/
theorem stopMS_serverNotEmpty_consumes_unit_witness :
    (0:Int) < 3 ∧
    ((StopMSCore true "online" 2 3 false none 0).err = some .serverNotEmpty ∧
     (StopMSCore true "online" 2 3 false none 0).stopMSRequests = 2 - 1 ∧
     (StopMSCore true "online" 2 3 false none 0).stopCmdSent = false) :=
  ⟨by decide, stopMS_serverNotEmpty_consumes_unit 2 3 false none 0 (by decide)⟩

/-- C9: `StopMS(false)` with the status `"online"` skips the player/pending
block entirely: the counter is untouched, no occupancy query is made, and the
stop command is invoked no matter how many players are connected. -/
theorem stopMS_no_playersCheck_frame (reqs pc : Int) (ifs : Bool)
    (e : Option String) (ak : Int) :
    (StopMSCore false "online" reqs pc ifs e ak).stopMSRequests = reqs ∧
    (StopMSCore false "online" reqs pc ifs e ak).playersQueried = false ∧
    (StopMSCore false "online" reqs pc ifs e ak).stopCmdSent = true := by
  simp only [StopMSCore]
  norm_num
  exact ⟨StopMSExec_stopMSRequests _ _ _ _ _, by cases e <;> rfl,
    StopMSExec_stopCmdSent _ _ _ _ _⟩

/-- The wait loop of `StopMS` exits exactly at the first non-`"starting"`
observation; if the trace is all `"starting"` the call is still waiting. -/
theorem StopMS_eq_firstNonStarting (playersCheck : Bool) (obs : List String)
    (reqs pc : Int) (ifs : Bool) (e : Option String) (ak : Int) :
    StopMS playersCheck obs reqs pc ifs e ak =
      match firstNonStarting obs with
      | none => .waiting
      | some st => .finished (StopMSCore playersCheck st reqs pc ifs e ak) := by
  induction obs with
  | nil => rfl
  | cons s rest ih =>
      by_cases h : s = "starting"
      · simp [StopMS, firstNonStarting, h, ih]
      · simp [StopMS, firstNonStarting, h]

theorem firstNonStarting_none_of_all (obs : List String)
    (h : ∀ s ∈ obs, s = "starting") : firstNonStarting obs = none := by
  induction obs with
  | nil => rfl
  | cons s rest ih =>
      have hs : s = "starting" := h s (by simp)
      simp only [firstNonStarting, hs, if_pos rfl]
      exact ih fun x hx => h x (by simp [hx])

/-- C5: a `StopMS` call issues nothing (no decrement, no query, no stop
command) while every status poll reads `"starting"`, and when the wait ends on
a status other than `"online"` it fails with the not-online error, leaving the
counter untouched and sending nothing. -/
theorem stopMS_waits_then_rejects (playersCheck : Bool) (obs : List String)
    (reqs pc : Int) (ifs : Bool) (e : Option String) (ak : Int) :
    ((∀ s ∈ obs, s = "starting") →
      StopMS playersCheck obs reqs pc ifs e ak = .waiting) ∧
    (∀ st, firstNonStarting obs = some st → st ≠ "online" →
      StopMS playersCheck obs reqs pc ifs e ak =
        .finished
          { err := some .notOnline, status := st, stopMSRequests := reqs,
            playersQueried := false, stopCmdSent := false,
            killWatchdogArmed := false }) := by
  constructor
  · intro h
    rw [StopMS_eq_firstNonStarting, firstNonStarting_none_of_all obs h]
  · intro st hfirst hst
    rw [StopMS_eq_firstNonStarting, hfirst]
    exact congrArg StopOutcome.finished
      (StopMSCore_not_online playersCheck st reqs pc ifs e ak hst)

/-- Witness for C5: a trace that stays `"starting"`, and a trace that ends the
wait on `"offline"`. -/
theorem stopMS_waits_then_rejects_witness :
    StopMS true ["starting", "starting"] 3 0 true none 5 = .waiting ∧
    StopMS true ["starting", "offline"] 3 0 true none 5 =
      .finished
        { err := some .notOnline, status := "offline", stopMSRequests := 3,
          playersQueried := false, stopCmdSent := false, killWatchdogArmed := false } :=
  ⟨(stopMS_waits_then_rejects true ["starting", "starting"] 3 0 true none 5).1
      (by decide),
   (stopMS_waits_then_rejects true ["starting", "offline"] 3 0 true none 5).2
      "offline" (by decide) (by decide)⟩

/-- C6: when the stop command `Execute` returns an error, `StopMS` reports the
`stopCommand` error for it, does not arm the kill watchdog, and never writes
the status (the status field equals the observed input status in every
branch). -/
theorem stopMS_exec_failure (playersCheck : Bool) (status : String) (reqs pc : Int)
    (ifs : Bool) (m : String) (ak : Int) :
    (StopMSCore playersCheck status reqs pc ifs (some m) ak).status = status ∧
    (StopMSCore playersCheck status reqs pc ifs (some m) ak).killWatchdogArmed = false ∧
    ((StopMSCore playersCheck status reqs pc ifs (some m) ak).stopCmdSent = true →
      (StopMSCore playersCheck status reqs pc ifs (some m) ak).err =
        some (.stopCommand m)) := by
  simp only [StopMSCore, StopMSExec]
  split_ifs <;> simp

/-- Witness for C6 at a concrete input where the command is reached and
fails. -/
theorem stopMS_exec_failure_witness :
    (StopMSCore true "online" 1 0 true (some "io error") 5).status = "online" ∧
    (StopMSCore true "online" 1 0 true (some "io error") 5).killWatchdogArmed = false ∧
    (StopMSCore true "online" 1 0 true (some "io error") 5).err =
      some (.stopCommand "io error") :=
  ⟨(stopMS_exec_failure true "online" 1 0 true "io error" 5).1,
   (stopMS_exec_failure true "online" 1 0 true "io error" 5).2.1,
   (stopMS_exec_failure true "online" 1 0 true "io error" 5).2.2 (by decide)⟩

theorem StopMSCore_kill_disabled (playersCheck : Bool) (st : String) (reqs pc : Int)
    (ifs : Bool) (e : Option String) :
    (StopMSCore playersCheck st reqs pc ifs e 0).killWatchdogArmed = false := by
  simp only [StopMSCore]
  split_ifs <;> (try rfl) <;> cases e <;> simp [StopMSExec]

/-- C4: with `StopServerAllowKill = 0`, no `StopMS` call ever launches
`killMSifOnlineAfterTimeout`, whatever the status trace, counter, player count
or command result — so this core never sends the kill signal. -/
theorem no_watchdog_when_kill_disabled (playersCheck : Bool) (obs : List String)
    (reqs pc : Int) (ifs : Bool) (e : Option String) :
    outcomeArmed (StopMS playersCheck obs reqs pc ifs e 0) = false := by
  rw [StopMS_eq_firstNonStarting]
  cases firstNonStarting obs with
  | none => rfl
  | some st => exact StopMSCore_kill_disabled playersCheck st reqs pc ifs e

/-- The string comparison in the `StopMSRequest` closure identifies exactly
the not-online error: no other `StopMS` error renders to that message. -/
theorem stopErrMsg_eq_notOnline_iff (e : StopErr) :
    stopErrMsg e = "StopMS: server is not online" ↔ e = .notOnline := by
  cases e with
  | notOnline => simp [stopErrMsg]
  | serverNotEmpty => simp [stopErrMsg]
  | pendingRequests n =>
      simp only [stopErrMsg, iff_iff_implies_and_implies]
      constructor
      · intro h
        have h2 := congrArg String.length h
        rw [String.length_append, String.length_append] at h2
        have e1 : ("StopMS: not enough time has passed since last player disconnected (StopMSRequests: ").length = 83 := by decide
        have e2 : ("StopMS: server is not online").length = 28 := by decide
        have e3 : (")").length = 1 := by decide
        omega
      · intro h
        cases h
  | stopCommand m =>
      simp only [stopErrMsg, iff_iff_implies_and_implies]
      constructor
      · intro h
        have h2 := congrArg String.length h
        rw [String.length_append] at h2
        have e1 : ("StopMS: error executing minecraft server stop command: ").length = 55 := by decide
        have e2 : ("StopMS: server is not online").length = 28 := by decide
        omega
      · intro h
        cases h

/-- C8: `StopMSRequest` adds exactly one to the counter and schedules exactly
one deferred `StopMS(true)` timer with the configured idle-timeout delay; in
the deferred closure a `nil` error and the benign not-online error produce no
log line, while every other error is logged (and nothing is ever returned to
the caller). -/
theorem stopMSRequest_increment_and_log (timeBeforeStoppingEmptyServer reqs : Int)
    (timers : List Int) :
    StopMSRequest timeBeforeStoppingEmptyServer reqs timers =
      (reqs + 1, timers ++ [timeBeforeStoppingEmptyServer]) ∧
    deferredStopLog none = none ∧
    deferredStopLog (some .notOnline) = none ∧
    (∀ e : StopErr, e ≠ .notOnline →
      deferredStopLog (some e) = some ("StopMSRequest: " ++ stopErrMsg e)) := by
  refine ⟨rfl, rfl, rfl, ?_⟩
  intro e he
  simp only [deferredStopLog]
  rw [if_neg]
  intro h
  exact he ((stopErrMsg_eq_notOnline_iff e).mp h)

/-- Witness for C8: one request on top of two pending, and a logged
server-not-empty error from the deferred call. -/
theorem stopMSRequest_increment_and_log_witness :
    StopMSRequest 60 2 [] = (2 + 1, [] ++ [60]) ∧
    deferredStopLog (some .serverNotEmpty) =
      some ("StopMSRequest: " ++ stopErrMsg .serverNotEmpty) :=
  ⟨(stopMSRequest_increment_and_log 60 2 []).1,
   (stopMSRequest_increment_and_log 60 2 []).2.2.2 .serverNotEmpty (by decide)⟩

theorem runCallbacks_nil (ak : Int) (s : SysState) : runCallbacks ak s [] = s := rfl

theorem runCallbacks_cons (ak : Int) (s : SysState) (e : CallbackEnv)
    (envs : List CallbackEnv) :
    runCallbacks ak s (e :: envs) = runCallbacks ak (runCallback ak s e) envs := rfl

theorem requestN_fst (timeBeforeStoppingEmptyServer : Int) :
    ∀ (n : Nat) (s : Int × List Int),
      (requestN timeBeforeStoppingEmptyServer n s).1 = s.1 + n := by
  intro n
  induction n with
  | zero => intro s; simp [requestN]
  | succ n ih =>
      intro s
      rw [requestN, ih]
      simp [StopMSRequest]
      omega

/-- While no stop command has been issued, every deferred callback observes
`"online"` and decrements once; only a callback that brings the counter to a
non-positive value can issue the stop command.  Hence starting from a counter
equal to the number of callbacks still to fire, the counter drains to 0. -/
theorem runCallbacks_drain (ak : Int) (envs : List CallbackEnv) :
    ∀ s : SysState, s.stopIssued = false → s.stopMSRequests = envs.length →
      (runCallbacks ak s envs).stopMSRequests = 0 := by
  induction envs with
  | nil =>
      intro s hIssued hCount
      rw [runCallbacks_nil]
      simpa using hCount
  | cons e rest ih =>
      intro s hIssued hCount
      rw [runCallbacks_cons]
      have hstat : callbackStatus s e = "online" := by
        simp [callbackStatus, hIssued]
      have hdec : (runCallback ak s e).stopMSRequests = s.stopMSRequests - 1 := by
        simp only [runCallback, hstat]
        exact StopMSCore_online_dec _ _ _ _ _
      cases rest with
      | nil =>
          rw [runCallbacks_nil, hdec, hCount]
          simp
      | cons r rs =>
          apply ih
          · have hcmd : (StopMSCore true "online" s.stopMSRequests e.playerCount
                e.isFromServer e.execErr ak).stopCmdSent = false := by
              rw [Bool.eq_false_iff]
              intro h
              have := (StopMSCore_online_cmd_iff s.stopMSRequests e.playerCount
                e.isFromServer e.execErr ak).mp h
              have hlen : s.stopMSRequests = ((r :: rs).length : Int) + 1 := by
                rw [hCount]; simp
              simp at hlen
              omega
            simp only [runCallback, hstat, hIssued, Bool.false_or]
            exact hcmd
          · rw [hdec, hCount]
            simp

/-- C2: after `n` `StopMSRequest` increments (all filed within one idle-timeout
window, so every increment precedes every timer firing) and then all `n`
deferred `StopMS(true)` callbacks, `Stats.StopMSRequests` is exactly 0 —
whatever the firing order, per-callback player counts, command results and
post-stop status observations. -/
theorem pendingStopRequests_drain_to_zero (timeBeforeStoppingEmptyServer ak : Int)
    (envs : List CallbackEnv) :
    (runCallbacks ak
      { stopMSRequests :=
          (requestN timeBeforeStoppingEmptyServer envs.length ((0 : Int), ([] : List Int))).1,
        stopIssued := false }
      envs).stopMSRequests = 0 := by
  apply runCallbacks_drain
  · rfl
  · rw [requestN_fst]
    simp

theorem killMSLoop_offline (obs : Nat → String) (fe ke : Option String) :
    ∀ (c i0 : Nat), (∃ j, j < c ∧ obs (i0 + j) = "offline") →
      killMSLoop obs fe ke i0 c =
        { disarmed := true, flushSent := false, waitedBufferSeconds := 0,
          killSignalSent := false, logs := [] } := by
  intro c
  induction c with
  | zero =>
      intro i0 h
      obtain ⟨j, hj, _⟩ := h
      omega
  | succ c ih =>
      intro i0 h
      obtain ⟨j, hj, hobs⟩ := h
      by_cases h0 : obs i0 = "offline"
      · simp [killMSLoop, h0]
      · rw [killMSLoop, if_neg h0]
        apply ih
        cases j with
        | zero =>
            rw [Nat.add_zero] at hobs
            exact absurd hobs h0
        | succ j =>
            refine ⟨j, by omega, ?_⟩
            rw [show i0 + 1 + j = i0 + (j + 1) by omega]
            exact hobs

theorem killMSLoop_escalate (obs : Nat → String) (fe ke : Option String) :
    ∀ (c i0 : Nat), (∀ j, j < c → obs (i0 + j) ≠ "offline") →
      killMSLoop obs fe ke i0 c = killEscalation fe ke := by
  intro c
  induction c with
  | zero => intro i0 h; rfl
  | succ c ih =>
      intro i0 h
      have h0 : obs i0 ≠ "offline" := by
        have := h 0 (by omega)
        rwa [Nat.add_zero] at this
      rw [killMSLoop, if_neg h0]
      apply ih
      intro j hj
      have := h (j + 1) (by omega)
      rwa [show i0 + (j + 1) = i0 + 1 + j by omega] at this

theorem killMSLoop_err_independent (obs : Nat → String) (fe ke fe2 ke2 : Option String) :
    ∀ (c i0 : Nat),
      (killMSLoop obs fe ke i0 c).disarmed = (killMSLoop obs fe2 ke2 i0 c).disarmed ∧
      (killMSLoop obs fe ke i0 c).flushSent = (killMSLoop obs fe2 ke2 i0 c).flushSent ∧
      (killMSLoop obs fe ke i0 c).killSignalSent =
        (killMSLoop obs fe2 ke2 i0 c).killSignalSent := by
  intro c
  induction c with
  | zero => intro i0; exact ⟨rfl, rfl, rfl⟩
  | succ c ih =>
      intro i0
      by_cases h0 : obs i0 = "offline"
      · simp [killMSLoop, h0]
      · rw [killMSLoop, killMSLoop, if_neg h0, if_neg h0]
        exact ih (i0 + 1)

theorem killMSLoop_frame (fe ke : Option String) :
    ∀ (c i0 : Nat) (obs obs2 : Nat → String),
      (∀ j, j < c → obs (i0 + j) = obs2 (i0 + j)) →
      killMSLoop obs fe ke i0 c = killMSLoop obs2 fe ke i0 c := by
  intro c
  induction c with
  | zero => intro i0 obs obs2 h; rfl
  | succ c ih =>
      intro i0 obs obs2 h
      have h0 : obs i0 = obs2 i0 := by
        have := h 0 (by omega)
        rwa [Nat.add_zero] at this
      rw [killMSLoop, killMSLoop, h0]
      by_cases hoff : obs2 i0 = "offline"
      · simp [hoff]
      · rw [if_neg hoff, if_neg hoff]
        apply ih
        intro j hj
        have := h (j + 1) (by omega)
        rwa [show i0 + (j + 1) = i0 + 1 + j by omega] at this

/-- C3: an armed kill watchdog disarms (no flush, no kill, no buffer wait, no
log) as soon as one of its polls within the grace period reads `"offline"`;
if no poll does, it runs the full escalation: `save-all` flush, the fixed
10-second buffer, then the kill signal.  Its outcome fields never depend on
the flush or kill delivery errors (those at most add a log entry), and the
function returns nothing to any caller in either path. -/
theorem killMS_watchdog_contract (stopServerAllowKill : Int) (obs : Nat → String)
    (fe ke : Option String) :
    ((∃ i, i < stopServerAllowKill.toNat ∧ obs i = "offline") →
      killMSifOnlineAfterTimeout stopServerAllowKill obs fe ke =
        { disarmed := true, flushSent := false, waitedBufferSeconds := 0,
          killSignalSent := false, logs := [] }) ∧
    ((∀ i, i < stopServerAllowKill.toNat → obs i ≠ "offline") →
      killMSifOnlineAfterTimeout stopServerAllowKill obs fe ke = killEscalation fe ke) ∧
    (∀ fe2 ke2 : Option String,
      (killMSifOnlineAfterTimeout stopServerAllowKill obs fe ke).disarmed =
        (killMSifOnlineAfterTimeout stopServerAllowKill obs fe2 ke2).disarmed ∧
      (killMSifOnlineAfterTimeout stopServerAllowKill obs fe ke).flushSent =
        (killMSifOnlineAfterTimeout stopServerAllowKill obs fe2 ke2).flushSent ∧
      (killMSifOnlineAfterTimeout stopServerAllowKill obs fe ke).killSignalSent =
        (killMSifOnlineAfterTimeout stopServerAllowKill obs fe2 ke2).killSignalSent) := by
  refine ⟨?_, ?_, ?_⟩
  · intro h
    obtain ⟨i, hi, hobs⟩ := h
    exact killMSLoop_offline obs fe ke stopServerAllowKill.toNat 0
      ⟨i, hi, by rwa [Nat.zero_add]⟩
  · intro h
    exact killMSLoop_escalate obs fe ke stopServerAllowKill.toNat 0
      fun j hj => by rw [Nat.zero_add]; exact h j hj
  · intro fe2 ke2
    exact killMSLoop_err_independent obs fe ke fe2 ke2 stopServerAllowKill.toNat 0

/-- Witness for C3: a three-second grace period that observes `"offline"` at
its first poll disarms with no flush and no kill. -/
theorem killMS_watchdog_contract_witness :
    (∃ i, i < (3 : Int).toNat ∧ (fun _ => "offline") i = "offline") ∧
    killMSifOnlineAfterTimeout 3 (fun _ => "offline") none none =
      { disarmed := true, flushSent := false, waitedBufferSeconds := 0,
        killSignalSent := false, logs := [] } :=
  ⟨⟨0, by decide, rfl⟩,
   (killMS_watchdog_contract 3 (fun _ => "offline") none none).1 ⟨0, by decide, rfl⟩⟩

/-- C10: the kill watchdog reads the status only at the top of its countdown
poll iterations: its whole outcome is a function of the first
`countdown` observations alone, and whenever none of those reads `"offline"`
the flush and the kill signal are both issued — even if the status turns
`"offline"` during the final one-second sleep or the post-flush buffer
(observations with later indices). -/
theorem killMS_polls_only_countdown (stopServerAllowKill : Int)
    (obs obs2 : Nat → String) (fe ke : Option String) :
    ((∀ i, i < stopServerAllowKill.toNat → obs i = obs2 i) →
      killMSifOnlineAfterTimeout stopServerAllowKill obs fe ke =
        killMSifOnlineAfterTimeout stopServerAllowKill obs2 fe ke) ∧
    ((∀ i, i < stopServerAllowKill.toNat → obs i ≠ "offline") →
      (killMSifOnlineAfterTimeout stopServerAllowKill obs fe ke).flushSent = true ∧
      (killMSifOnlineAfterTimeout stopServerAllowKill obs fe ke).killSignalSent = true) := by
  constructor
  · intro h
    exact killMSLoop_frame fe ke stopServerAllowKill.toNat 0 obs obs2
      fun j hj => by rw [Nat.zero_add]; exact h j hj
  · intro h
    rw [killMSifOnlineAfterTimeout,
      killMSLoop_escalate obs fe ke stopServerAllowKill.toNat 0
        fun j hj => by rw [Nat.zero_add]; exact h j hj]
    exact ⟨rfl, rfl⟩

/-- Witness for C10: with a two-second grace period, a status that turns
`"offline"` only from the third observation on gives the same outcome as one
that never does, and the flush and kill are still issued. -/
theorem killMS_polls_only_countdown_witness :
    killMSifOnlineAfterTimeout 2 (fun i => if i < 2 then "online" else "offline")
        none none =
      killMSifOnlineAfterTimeout 2 (fun _ => "online") none none ∧
    (killMSifOnlineAfterTimeout 2 (fun i => if i < 2 then "online" else "offline")
        none none).flushSent = true ∧
    (killMSifOnlineAfterTimeout 2 (fun i => if i < 2 then "online" else "offline")
        none none).killSignalSent = true :=
  ⟨(killMS_polls_only_countdown 2 (fun i => if i < 2 then "online" else "offline")
      (fun _ => "online") none none).1 (by decide),
   (killMS_polls_only_countdown 2 (fun i => if i < 2 then "online" else "offline")
      (fun _ => "online") none none).2 (by decide)⟩

end Servctrl
